import Mathlib

/-! Verification development for the tax-logic-core repository.

The definitions below are a shallow embedding, in Lean 4, of the JavaScript
source under `src/`: monetary amounts are rational numbers (`ℚ`), JS fields
that may be absent are `Option ℚ` (with the source's `parseFloat(x) || 0`
coercion modelled by `num`), the implicit current date read by
`calculateAge` is passed as an explicit `DateParts` argument, and the
undefined/NaN value that arises from `currentTax.regularTax ||
currentTax.incomeTax` (the pipeline result has no `incomeTax` field) is
modelled by `Option ℚ` with `none` standing for NaN.  Analyzer plugins are
embedded as total functions returning `Except String (List Rec)`, the
`Except.error` case standing for a thrown JS exception caught by the
orchestrator's per-analyzer `try`/`catch` blocks.  -/

namespace TaxCore

/-- Filing status enumeration: `single | married | marriedSeparate | head | widow`. -/
inductive FilingStatus where
  | single
  | married
  | marriedSeparate
  | head
  | widow
deriving DecidableEq, Repr

/-- Components of a calendar date, as read off a JS `Date` value
(`getFullYear`, `getMonth`, `getDate`). -/
structure DateParts where
  year : Int
  month : Int
  day : Int
deriving DecidableEq, Repr

/-- The two values of `form.deductionType` the code compares against
(`form.deductionType === 'itemized'`). -/
inductive DeductionType where
  | standard
  | itemized
deriving DecidableEq, Repr

/-- One entry of `form.dependents`. -/
structure Dependent where
  qualifyingChild : Bool := false
  childTaxCredit : Bool := false
deriving DecidableEq, Repr

/-- `form.scheduleC`: either a direct `netProfit` or `grossReceipts`/`expenses`. -/
structure ScheduleC where
  netProfit : Option ℚ := none
  grossReceipts : Option ℚ := none
  expenses : Option ℚ := none
deriving DecidableEq, Repr

/-- `form.scheduleE`: either a direct `netIncome` or income/expense pair. -/
structure ScheduleE where
  netIncome : Option ℚ := none
  rentalIncome : Option ℚ := none
  rentalExpenses : Option ℚ := none
deriving DecidableEq, Repr

/-- `form.scheduleD`: short- and long-term capital gains. -/
structure ScheduleD where
  shortTermGain : Option ℚ := none
  longTermGain : Option ℚ := none
deriving DecidableEq, Repr

/-- The TaxProfile record (`form` throughout `calculateTax.js` and the
optimizers).  Absent JS fields are `none`; every field that the embedded
code reads is present. -/
structure Form where
  filingStatus : Option FilingStatus := none
  totalWages : Option ℚ := none
  taxableInterest : Option ℚ := none
  ordinaryDividends : Option ℚ := none
  qualifiedDividends : Option ℚ := none
  taxableIra : Option ℚ := none
  taxablePensions : Option ℚ := none
  taxableSocialSecurity : Option ℚ := none
  capitalGainLoss : Option ℚ := none
  otherIncome : Option ℚ := none
  hasScheduleC : Bool := false
  scheduleC : Option ScheduleC := none
  hasScheduleE : Bool := false
  scheduleE : Option ScheduleE := none
  hasScheduleD : Bool := false
  scheduleD : Option ScheduleD := none
  educatorExpenses : Option ℚ := none
  hsaDeduction : Option ℚ := none
  selfEmploymentTaxDeduction : Option ℚ := none
  selfEmployedSEPSimple : Option ℚ := none
  selfEmployedHealthInsurance : Option ℚ := none
  penaltyEarlyWithdrawal : Option ℚ := none
  alimonyPaid : Option ℚ := none
  iraDeduction : Option ℚ := none
  studentLoanInterest : Option ℚ := none
  tipIncome : Option ℚ := none
  overtimeIncome : Option ℚ := none
  autoLoanInterest : Option ℚ := none
  birthDate : Option DateParts := none
  deductionType : Option DeductionType := none
  stateLocalTaxes : Option ℚ := none
  realEstateTaxes : Option ℚ := none
  medicalExpenses : Option ℚ := none
  mortgageInterest : Option ℚ := none
  charityCash : Option ℚ := none
  charityNonCash : Option ℚ := none
  casualtyLosses : Option ℚ := none
  otherItemized : Option ℚ := none
  dependents : List Dependent := []
  childTaxCredit : Option ℚ := none
  creditOtherDependents : Option ℚ := none
  educationCredits : Option ℚ := none
  retirementSaversCredit : Option ℚ := none
  childCareCredit : Option ℚ := none
  earnedIncomeCredit : Option ℚ := none
  otherCredits : Option ℚ := none
  totalWithholding : Option ℚ := none
  estimatedTaxPayments : Option ℚ := none
  amountAppliedFromPriorYear : Option ℚ := none
  itemizedDeductions : Bool := false
  isoExerciseSpread : Option ℚ := none
  privateActivityBondInterest : Option ℚ := none
  amtDepreciationAdjustment : Option ℚ := none
deriving DecidableEq, Repr

/-- `parseFloat(x) || 0`: an absent (or non-numeric) field is coerced to 0. -/
def num (x : Option ℚ) : ℚ := x.getD 0

/-- JS `a || b` on numbers that are known to be present: 0 is falsy. -/
def jsOr (a b : ℚ) : ℚ := if a = 0 then b else a

/-- `Math.max` on two rationals (defined by the order test so that kernel
evaluation on concrete inputs stays unblocked; equals `max`). -/
def jsMax (a b : ℚ) : ℚ := if a ≤ b then b else a

/-- `Math.min` on two rationals; equals `min`. -/
def jsMin (a b : ℚ) : ℚ := if a ≤ b then a else b

/-- `TAX_BRACKETS_2025` from `calculateTax.js`: ordered (floor, marginalRate)
pairs per filing status. -/
def TAX_BRACKETS_2025 : FilingStatus → List (ℚ × ℚ)
  | .single =>
      [(0, 0.10), (11925, 0.12), (48475, 0.22), (103350, 0.24),
       (197300, 0.32), (250525, 0.35), (626350, 0.37)]
  | .married =>
      [(0, 0.10), (23850, 0.12), (96950, 0.22), (206700, 0.24),
       (394600, 0.32), (501050, 0.35), (751600, 0.37)]
  | .marriedSeparate =>
      [(0, 0.10), (11925, 0.12), (48475, 0.22), (103350, 0.24),
       (197300, 0.32), (250525, 0.35), (375800, 0.37)]
  | .head =>
      [(0, 0.10), (17000, 0.12), (64850, 0.22), (103350, 0.24),
       (197300, 0.32), (250500, 0.35), (626350, 0.37)]
  | .widow =>
      [(0, 0.10), (23850, 0.12), (96950, 0.22), (206700, 0.24),
       (394600, 0.32), (501050, 0.35), (751600, 0.37)]

/-- `STANDARD_DEDUCTIONS_2025`. -/
def STANDARD_DEDUCTIONS_2025 : FilingStatus → ℚ
  | .single => 15700
  | .married => 31400
  | .marriedSeparate => 15700
  | .head => 23500
  | .widow => 31400

/-- `CAPITAL_GAINS_BRACKETS_2025`. -/
def CAPITAL_GAINS_BRACKETS_2025 : FilingStatus → List (ℚ × ℚ)
  | .single => [(0, 0), (48350, 0.15), (533400, 0.20)]
  | .married => [(0, 0), (96700, 0.15), (600050, 0.20)]
  | .marriedSeparate => [(0, 0), (48350, 0.15), (300025, 0.20)]
  | .head => [(0, 0), (64750, 0.15), (566700, 0.20)]
  | .widow => [(0, 0), (96700, 0.15), (600050, 0.20)]

/-- The bracket walk of `calculateBracketTax` (lines 95-106): for bracket
`(limit, rate)` with successor floor `next`, if `income > next` the whole
band `(next - limit) * rate` is added and the walk continues, otherwise the
walk adds `(income - limit) * rate` and stops; the last bracket's successor
floor is `Infinity`, so the walk always stops there. -/
def bracketWalk (income : ℚ) : List (ℚ × ℚ) → ℚ
  | [] => 0
  | (limit, rate) :: rest =>
    match rest with
    | [] => (income - limit) * rate
    | (next, _) :: _ =>
      if next < income then (next - limit) * rate + bracketWalk income rest
      else (income - limit) * rate

/-- `calculateBracketTax(income, brackets)`: progressive marginal-rate tax. -/
def calculateBracketTax (income : ℚ) (brackets : List (ℚ × ℚ)) : ℚ :=
  if income ≤ 0 then 0 else jsMax 0 (bracketWalk income brackets)

/-- The descending loop of `calculateCapitalGainsTax` (lines 124-132),
written as a recursion over the reversed bracket list: the loop continues
only while `remainingGains > 0`; a bracket whose threshold is under the
combined total taxes the slice between `max(taxableIncome, threshold)` and
the combined total. -/
def cgLoop (taxableIncome totalIncome : ℚ) : List (ℚ × ℚ) → ℚ → ℚ
  | [], _ => 0
  | (threshold, rate) :: rest, remainingGains =>
    if remainingGains ≤ 0 then 0
    else if threshold < totalIncome then
      let slice := jsMin remainingGains (totalIncome - jsMax taxableIncome threshold)
      slice * rate + cgLoop taxableIncome totalIncome rest (remainingGains - slice)
    else cgLoop taxableIncome totalIncome rest remainingGains

/-- `calculateCapitalGainsTax(taxableIncome, capitalGains, filingStatus)`:
stacked preferential-income tax. -/
def calculateCapitalGainsTax (taxableIncome capitalGains : ℚ) (fs : FilingStatus) : ℚ :=
  if capitalGains ≤ 0 then 0
  else
    let brackets := CAPITAL_GAINS_BRACKETS_2025 fs
    let totalIncome := taxableIncome + capitalGains
    jsMax 0 (cgLoop taxableIncome totalIncome brackets.reverse capitalGains)

/-- Result record of `calculateSelfEmploymentTax`. -/
structure SETaxResult where
  tax : ℚ
  deduction : ℚ
deriving DecidableEq, Repr

/-- `calculateSelfEmploymentTax(netSelfEmploymentIncome)`. -/
def calculateSelfEmploymentTax (netSelfEmploymentIncome : ℚ) : SETaxResult :=
  if netSelfEmploymentIncome ≤ 0 then { tax := 0, deduction := 0 }
  else
    let taxableBase := netSelfEmploymentIncome * 0.9235
    let ssWageBase : ℚ := 176100
    let ssTax := jsMin taxableBase ssWageBase * 0.124
    let medicareTax := taxableBase * 0.029
    let additionalMedicareThreshold : ℚ := 200000
    let additionalMedicare := jsMax 0 (taxableBase - additionalMedicareThreshold) * 0.009
    let totalTax := ssTax + medicareTax + additionalMedicare
    { tax := totalTax, deduction := totalTax * 0.5 }

/-- NIIT thresholds table inside `calculateNIIT` (lines 169-175); the lookup
`thresholds[filingStatus] || 200000` always hits for the five statuses. -/
def niitThreshold : FilingStatus → ℚ
  | .single => 200000
  | .married => 250000
  | .marriedSeparate => 125000
  | .head => 200000
  | .widow => 250000

/-- `calculateNIIT(agi, netInvestmentIncome, filingStatus)`: note the code
floors only the excess-AGI operand, not the net-investment-income operand. -/
def calculateNIIT (agi netInvestmentIncome : ℚ) (fs : FilingStatus) : ℚ :=
  let excessAGI := jsMax 0 (agi - niitThreshold fs)
  let taxableNII := jsMin excessAGI netInvestmentIncome
  taxableNII * 0.038

/-- The pipeline's output record (`calculateTotalTax`'s return object,
lines 398-413); the computed `niit` flows into `totalTaxBeforeCredits` but
is not itself a field of the result. -/
structure TaxResult where
  totalIncome : ℚ
  totalAdjustments : ℚ
  agi : ℚ
  deduction : ℚ
  taxableIncome : ℚ
  regularTax : ℚ
  capitalGainsTax : ℚ
  seTax : ℚ
  totalTaxBeforeCredits : ℚ
  totalCredits : ℚ
  finalTax : ℚ
  totalPayments : ℚ
  refundOrOwed : ℚ
  isRefund : Bool
deriving DecidableEq, Repr

/-- The local `calculateAge` helper (lines 241-249).  The JS code reads the
current date with `new Date()`; the embedding passes it in as `today`. -/
def calculateAge (today : DateParts) : Option DateParts → Int
  | none => 40
  | some birth =>
    let age := today.year - birth.year
    let monthDiff := today.month - birth.month
    if monthDiff < 0 ∨ (monthDiff = 0 ∧ today.day < birth.day) then age - 1 else age

/-- Schedule C net profit (lines 202-212). -/
def scheduleCNet (form : Form) : ℚ :=
  if form.hasScheduleC then
    match form.scheduleC with
    | some sc =>
      match sc.netProfit with
      | some np => np
      | none => num sc.grossReceipts - num sc.expenses
    | none => 0
  else 0

/-- Schedule E net rental (lines 214-223). -/
def scheduleENet (form : Form) : ℚ :=
  if form.hasScheduleE then
    match form.scheduleE with
    | some se =>
      match se.netIncome with
      | some ni => ni
      | none => num se.rentalIncome - num se.rentalExpenses
    | none => 0
  else 0

/-- Total capital gains (line 234): Schedule D when present, otherwise the
manual capital-gain line. -/
def totalCapitalGainsOf (form : Form) : ℚ :=
  if form.hasScheduleD then
    match form.scheduleD with
    | some sd => num sd.shortTermGain + num sd.longTermGain
    | none => num form.capitalGainLoss
  else num form.capitalGainLoss

/-- Long-term gains used for the preferential-income stack (line 338):
`form.hasScheduleD ? (parseFloat(form.scheduleD?.longTermGain) || 0) : 0`. -/
def longTermGainsOf (form : Form) : ℚ :=
  if form.hasScheduleD then
    match form.scheduleD with
    | some sd => num sd.longTermGain
    | none => 0
  else 0

/-- The nine above-the-line adjustments summed at lines 266-274 (and again,
as the first nine terms, at lines 285-294). -/
def baseAdjustmentsOf (form : Form) : ℚ :=
  num form.educatorExpenses + num form.hsaDeduction +
    num form.selfEmploymentTaxDeduction + num form.selfEmployedSEPSimple +
    num form.selfEmployedHealthInsurance + num form.penaltyEarlyWithdrawal +
    num form.alimonyPaid + num form.iraDeduction + num form.studentLoanInterest

/-- The local `getPhaseOutPct` helper (lines 253-261). -/
def getPhaseOutPct (filingStatus : FilingStatus) (income : ℚ) : ℚ :=
  let start : ℚ := if filingStatus = .married then 300000 else 150000
  let stop : ℚ := if filingStatus = .married then 550000 else 400000
  if income ≤ start then 1
  else if stop ≤ income then 0
  else 1 - (income - start) / (stop - start)

/-- Senior bonus deduction (line 282): 6000 when the computed age is at
least 65. -/
def seniorBonusOf (today : DateParts) (form : Form) : ℚ :=
  if 65 ≤ calculateAge today form.birthDate then 6000 else 0

/-- Capped SALT amount (lines 306-310): state/local plus real-estate taxes,
capped at 20000 for separate filers and 40000 otherwise. -/
def actualSaltOf (form : Form) : ℚ :=
  let filingStatus := form.filingStatus.getD .single
  let saltCap : ℚ := if filingStatus = .marriedSeparate then 20000 else 40000
  jsMin (num form.stateLocalTaxes + num form.realEstateTaxes) saltCap

/-- Itemized total (lines 312-319). -/
def itemizedTotalOf (form : Form) : ℚ :=
  num form.medicalExpenses + actualSaltOf form + num form.mortgageInterest +
    num form.charityCash + num form.charityNonCash + num form.casualtyLosses +
    num form.otherItemized

/-- Estimated child tax credit (lines 361-364): 2000 per dependent flagged
as qualifying child with the child-tax-credit box ticked. -/
def estimatedChildCreditOf (form : Form) : ℚ :=
  ((form.dependents.filter fun d => d.qualifyingChild && d.childTaxCredit).length : ℚ) * 2000

/-- Estimated other-dependents credit (lines 362-365): 500 per
non-qualifying-child dependent. -/
def estimatedOtherDependentsCreditOf (form : Form) : ℚ :=
  ((form.dependents.filter fun d => !d.qualifyingChild).length : ℚ) * 500

/-- Non-refundable credits (lines 377-381); the `parseFloat(x) || estimate`
fallbacks are `jsOr`. -/
def nonRefundableCreditsOf (form : Form) : ℚ :=
  jsOr (num form.childTaxCredit) (estimatedChildCreditOf form) +
    jsOr (num form.creditOtherDependents) (estimatedOtherDependentsCreditOf form) +
    num form.educationCredits + num form.retirementSaversCredit +
    num form.childCareCredit

/-- Refundable credits (lines 383-384). -/
def refundableCreditsOf (form : Form) : ℚ :=
  num form.earnedIncomeCredit + num form.otherCredits

/-- `calculateTotalTax(form)` (lines 187-414), the TaxPipeline.  `today` is
the current date that the JS code obtains from `new Date()` inside
`calculateAge`. -/
def calculateTotalTax (today : DateParts) (form : Form) : TaxResult :=
  let filingStatus := form.filingStatus.getD .single
  let taxableInterest := num form.taxableInterest
  let ordinaryDividends := num form.ordinaryDividends
  let qualifiedDividends := num form.qualifiedDividends
  let scheduleC := scheduleCNet form
  let scheduleE := scheduleENet form
  let totalCapitalGains := totalCapitalGainsOf form
  let totalIncome := num form.totalWages + taxableInterest + ordinaryDividends +
    num form.taxableIra + num form.taxablePensions + num form.taxableSocialSecurity +
    num form.otherIncome + scheduleC + scheduleE + totalCapitalGains
  let magiForPhaseOut := totalIncome - baseAdjustmentsOf form
  let phaseOutPct := getPhaseOutPct filingStatus magiForPhaseOut
  let tipsDeduction := jsMin (num form.tipIncome) 25000 * phaseOutPct
  let overtimeDeduction := jsMin (num form.overtimeIncome) 12500 * phaseOutPct
  let autoLoanDeduction := jsMin (num form.autoLoanInterest) 10000
  let seniorBonus := seniorBonusOf today form
  let totalAdjustments := baseAdjustmentsOf form + tipsDeduction + overtimeDeduction +
    autoLoanDeduction + seniorBonus
  let agi := totalIncome - totalAdjustments
  let standardDeduction := STANDARD_DEDUCTIONS_2025 filingStatus
  let deduction :=
    if form.deductionType = some .itemized then itemizedTotalOf form else standardDeduction
  let qbiDeduction :=
    if 0 < scheduleC then
      let tentativeQBI := scheduleC * 0.20
      let taxableBeforeQBI := jsMax 0 (agi - deduction)
      let capGains := longTermGainsOf form
      let limit := (taxableBeforeQBI - capGains) * 0.20
      jsMin tentativeQBI (jsMax 0 limit)
    else 0
  let taxableIncome := jsMax 0 (agi - deduction - qbiDeduction)
  let longTermGains := longTermGainsOf form
  let totalQualifiedIncome := qualifiedDividends + jsMax 0 longTermGains
  let ordinaryTaxableIncome := jsMax 0 (taxableIncome - totalQualifiedIncome)
  let regularTax := calculateBracketTax ordinaryTaxableIncome (TAX_BRACKETS_2025 filingStatus)
  let capitalGainsTax := calculateCapitalGainsTax ordinaryTaxableIncome totalQualifiedIncome filingStatus
  let seTax := (calculateSelfEmploymentTax scheduleC).tax
  let investmentIncome := taxableInterest + ordinaryDividends + totalCapitalGains + scheduleE
  let niit := calculateNIIT agi investmentIncome filingStatus
  let totalTaxBeforeCredits := regularTax + capitalGainsTax + seTax + niit
  let totalCredits := jsOr (num form.childTaxCredit) (estimatedChildCreditOf form) +
    jsOr (num form.creditOtherDependents) (estimatedOtherDependentsCreditOf form) +
    num form.educationCredits + num form.retirementSaversCredit +
    num form.childCareCredit + num form.earnedIncomeCredit + num form.otherCredits
  let taxAfterNonRefundable := jsMax 0 (totalTaxBeforeCredits - nonRefundableCreditsOf form)
  let finalTax := taxAfterNonRefundable - refundableCreditsOf form
  let totalPayments := num form.totalWithholding + num form.estimatedTaxPayments +
    num form.amountAppliedFromPriorYear
  let refundOrOwed := totalPayments - finalTax
  { totalIncome := totalIncome
    totalAdjustments := totalAdjustments
    agi := agi
    deduction := deduction
    taxableIncome := taxableIncome
    regularTax := regularTax
    capitalGainsTax := capitalGainsTax
    seTax := seTax
    totalTaxBeforeCredits := totalTaxBeforeCredits
    totalCredits := totalCredits
    finalTax := finalTax
    totalPayments := totalPayments
    refundOrOwed := refundOrOwed
    isRefund := decide (0 ≤ refundOrOwed) }

/-- `AMT_2025.exemption` (amtOptimizer.js lines 12-17); the table has no
`widow` entry, so the lookup `AMT_2025.exemption[filingStatus] ||
AMT_2025.exemption.single` falls back to the single value there. -/
def amtExemptionBase : FilingStatus → ℚ
  | .single => 88100
  | .married => 137000
  | .marriedSeparate => 68500
  | .head => 88100
  | .widow => 88100

/-- `AMT_2025.phaseOut` (lines 18-23), with the same `widow` fallback. -/
def amtPhaseOutStart : FilingStatus → ℚ
  | .single => 609350
  | .married => 1218700
  | .marriedSeparate => 609350
  | .head => 609350
  | .widow => 609350

/-- `calculateAMTExemption(amti, filingStatus)` (lines 145-157). -/
def calculateAMTExemption (amti : ℚ) (fs : FilingStatus) : ℚ :=
  let baseExemption := amtExemptionBase fs
  let phaseOutStart := amtPhaseOutStart fs
  if amti ≤ phaseOutStart then baseExemption
  else jsMax 0 (baseExemption - (amti - phaseOutStart) * 0.25)

/-- The AMT adjustments sub-record (lines 133-138). -/
structure AMTAdjustments where
  salt : ℚ
  isoSpread : ℚ
  pabInterest : ℚ
  depreciation : ℚ
deriving DecidableEq, Repr

/-- Result record of `calculateAMT` (lines 124-139).  `regularTax` inside
`calculateAMT` is `currentTax.regularTax || currentTax.incomeTax`; the
pipeline's result has no `incomeTax` field, so a zero regular tax makes this
expression `undefined`, and every arithmetic result built from it is NaN.
`Option ℚ` models this: `none` is the undefined/NaN value. -/
structure AMTResultJS where
  amti : ℚ
  regularTaxableIncome : ℚ
  regularTax : Option ℚ
  exemption : ℚ
  tentativeMinimumTax : ℚ
  amtOwed : Option ℚ
  amtExposure : Option ℚ
  amtMargin : Option ℚ
  adjustments : AMTAdjustments
deriving DecidableEq, Repr

/-- Capped SALT add-back of `calculateAMT` (lines 75-78): the cap here is
the flat 40000, not the filing-status-dependent cap of the pipeline. -/
def amtSaltDeductionOf (form : Form) : ℚ :=
  jsMin (num form.stateLocalTaxes + num form.realEstateTaxes) 40000

/-- `calculateAMT(form, currentTax, filingStatus)` (lines 67-140). -/
def calculateAMT (form : Form) (currentTax : TaxResult) (fs : FilingStatus) : AMTResultJS :=
  let regularTaxableIncome := currentTax.taxableIncome
  let regularTax : Option ℚ :=
    if currentTax.regularTax = 0 then none else some currentTax.regularTax
  let saltDeduction := amtSaltDeductionOf form
  let amti := regularTaxableIncome +
    (if form.itemizedDeductions ∧ 0 < saltDeduction then saltDeduction else 0) +
    num form.isoExerciseSpread + num form.privateActivityBondInterest +
    num form.amtDepreciationAdjustment
  let exemption := calculateAMTExemption amti fs
  let amtBase := jsMax 0 (amti - exemption)
  let amtThreshold : ℚ := if fs = .marriedSeparate then 232600 / 2 else 232600
  let tentativeMinimumTax :=
    if amtBase ≤ amtThreshold then amtBase * 0.26
    else amtThreshold * 0.26 + (amtBase - amtThreshold) * 0.28
  let amtOwed := regularTax.map fun rt => jsMax 0 (tentativeMinimumTax - rt)
  { amti := amti
    regularTaxableIncome := regularTaxableIncome
    regularTax := regularTax
    exemption := exemption
    tentativeMinimumTax := tentativeMinimumTax
    amtOwed := amtOwed
    amtExposure := amtOwed
    amtMargin := regularTax.map fun rt => rt - tentativeMinimumTax
    adjustments :=
      { salt := saltDeduction
        isoSpread := num form.isoExerciseSpread
        pabInterest := num form.privateActivityBondInterest
        depreciation := num form.amtDepreciationAdjustment } }

/-- The partial-TaxProfile override patch a Recommendation may carry
(`formOverrides`); a JS object spread `{...form, ...overrides}` replaces
exactly the fields present in the patch. -/
structure Overrides where
  deductionType : Option DeductionType := none
  filingStatus : Option FilingStatus := none
deriving DecidableEq, Repr

/-- `{...form, ...overrides}`: fields present in the patch win. -/
def applyOverrides (form : Form) (o : Overrides) : Form :=
  { form with
    deductionType := match o.deductionType with
      | some d => some d
      | none => form.deductionType
    filingStatus := match o.filingStatus with
      | some s => some s
      | none => form.filingStatus }

/-- A Recommendation value object, restricted to the fields the orchestrator
reads: `id`, `category`, `difficulty`, `potentialSavings`, `formOverrides`. -/
structure Rec where
  id : String
  category : String
  difficulty : String
  potentialSavings : ℚ
  formOverrides : Option Overrides := none
deriving DecidableEq, Repr

/-- The Analyzer contract: a TaxProfile in, a list of Recommendations out;
`Except.error` models a thrown JS exception. -/
def Analyzer : Type := Form → Except String (List Rec)

/-- The sequence of per-analyzer `try`/`catch` blocks of
`analyzeTaxOptimizations` (taxOptimizer.js lines 333-413): each analyzer's
recommendations are appended to `allOptimizations`; a thrown error is
recorded as a `console.warn` diagnostic and contributes nothing. -/
def runAnalyzers : List Analyzer → Form → List Rec × List String
  | [], _ => ([], [])
  | a :: rest, form =>
    let tailRes := runAnalyzers rest form
    match a form with
    | Except.ok recs => (recs ++ tailRes.1, tailRes.2)
    | Except.error e => (tailRes.1, e :: tailRes.2)

/-- Insert into a list already sorted descending by `potentialSavings`,
keeping the inserted element before later ties: together with `sortDesc`
this is the unique stable descending sort, the semantics of the ES2019+
stable `Array.prototype.sort((a, b) => b.potentialSavings -
a.potentialSavings)` at line 418. -/
def insertDesc (x : Rec) : List Rec → List Rec
  | [] => [x]
  | y :: ys =>
    if y.potentialSavings ≤ x.potentialSavings then x :: y :: ys
    else y :: insertDesc x ys

/-- Stable sort, descending by `potentialSavings`. -/
def sortDesc : List Rec → List Rec
  | [] => []
  | x :: xs => insertDesc x (sortDesc xs)

/-- One step of `generateSummary`'s `byCategory` accumulation
(lines 441-450). -/
def bumpCategory : List (String × Nat × ℚ) → Rec → List (String × Nat × ℚ)
  | [], r => [(r.category, 1, r.potentialSavings)]
  | (c, n, s) :: rest, r =>
    if c = r.category then (c, n + 1, s + r.potentialSavings) :: rest
    else (c, n, s) :: bumpCategory rest r

/-- `generateSummary`'s return object (lines 452-457). -/
structure Summary where
  totalCount : Nat
  byCategory : List (String × Nat × ℚ)
  topRecommendation : Option Rec
  easyWins : Nat
deriving DecidableEq, Repr

/-- `generateSummary(optimizations)` (lines 438-458). -/
def generateSummary (optimizations : List Rec) : Summary :=
  { totalCount := optimizations.length
    byCategory := optimizations.foldl bumpCategory []
    topRecommendation := optimizations.head?
    easyWins := (optimizations.filter fun o => o.difficulty == "easy").length }

/-- The orchestrator's return object (lines 426-432) extended with the
list of `console.warn` diagnostics the run emitted. -/
structure OrchestratorResult where
  currentTax : TaxResult
  optimizations : List Rec
  totalPotentialSavings : ℚ
  optimizedTax : ℚ
  summary : Summary
  diagnostics : List String
deriving DecidableEq, Repr

/-- `analyzeTaxOptimizations(form)` (lines 324-433), parameterized over the
registered analyzer sequence (the source registers ten concrete analyzers
in its try/catch blocks) and the current date read inside
`calculateTotalTax`. -/
def analyzeTaxOptimizations (today : DateParts) (analyzers : List Analyzer)
    (form : Form) : OrchestratorResult :=
  let currentTax := calculateTotalTax today form
  let ran := runAnalyzers analyzers form
  let beneficial := sortDesc (ran.1.filter fun o => decide (0 < o.potentialSavings))
  let totalPotentialSavings := (beneficial.map fun o => o.potentialSavings).sum
  { currentTax := currentTax
    optimizations := beneficial
    totalPotentialSavings := totalPotentialSavings
    optimizedTax := jsMax 0 (currentTax.finalTax - totalPotentialSavings)
    summary := generateSummary beneficial
    diagnostics := ran.2 }

/-- `runWhatIfScenario`'s return object (lines 485-490). -/
structure WhatIfResult where
  originalTax : TaxResult
  newTax : TaxResult
  savings : ℚ
  selectedOptimizations : List Rec
deriving DecidableEq, Repr

/-- `runWhatIfScenario(form, selectedOptimizationIds)` (lines 463-491): the
selected recommendations are the ranked `optimizations` list filtered by
`selectedOptimizationIds.includes(opt.id)`, and their patches are folded
onto the form in that ranked-list order. -/
def runWhatIfScenario (today : DateParts) (analyzers : List Analyzer)
    (form : Form) (selectedOptimizationIds : List String) : WhatIfResult :=
  let optimizations := (analyzeTaxOptimizations today analyzers form).optimizations
  let selectedOpts := optimizations.filter fun o => selectedOptimizationIds.contains o.id
  let modifiedForm := selectedOpts.foldl
    (fun f o => match o.formOverrides with
      | some ov => applyOverrides f ov
      | none => f) form
  let originalTax := calculateTotalTax today form
  let newTax := calculateTotalTax today modifiedForm
  { originalTax := originalTax
    newTax := newTax
    savings := originalTax.finalTax - newTax.finalTax
    selectedOptimizations := selectedOpts }

/-- Modelled from the spec, for comparison with `runWhatIfScenario`: §4.8
prescribes that each selected id is looked up and the patches are merged
onto a copy of the profile in selection order, later patches overriding
earlier ones, unknown ids being no-ops. -/
def runWhatIfScenarioSpec (today : DateParts) (analyzers : List Analyzer)
    (form : Form) (selectedOptimizationIds : List String) : WhatIfResult :=
  let optimizations := (analyzeTaxOptimizations today analyzers form).optimizations
  let selectedOpts := optimizations.filter fun o => selectedOptimizationIds.contains o.id
  let modifiedForm := selectedOptimizationIds.foldl
    (fun f i => match optimizations.find? fun o => o.id == i with
      | some r => match r.formOverrides with
        | some ov => applyOverrides f ov
        | none => f
      | none => f) form
  let originalTax := calculateTotalTax today form
  let newTax := calculateTotalTax today modifiedForm
  { originalTax := originalTax
    newTax := newTax
    savings := originalTax.finalTax - newTax.finalTax
    selectedOptimizations := selectedOpts }

/-! Bridge lemmas between the executable `jsMax`/`jsMin` and the order
operations `max`/`min`. -/

theorem jsMax_eq_max (a b : ℚ) : jsMax a b = max a b := by
  unfold jsMax
  rcases le_or_lt a b with h | h
  · rw [if_pos h, max_eq_right h]
  · rw [if_neg (not_le.mpr h), max_eq_left h.le]

theorem jsMin_eq_min (a b : ℚ) : jsMin a b = min a b := by
  unfold jsMin
  rcases le_or_lt a b with h | h
  · rw [if_pos h, min_eq_left h]
  · rw [if_neg (not_le.mpr h), min_eq_right h.le]

theorem jsMax_zero_nonneg (x : ℚ) : 0 ≤ jsMax 0 x := by
  rw [jsMax_eq_max]
  exact le_max_left 0 x

/-- A fixed evaluation date for concrete runs of the pipeline (the source
reads the clock only inside `calculateAge`). -/
def dEval : DateParts := ⟨2025, 6, 1⟩

/-- C1: for the single-filer preferential table [(0, 0%), (48350, 15%),
(533400, 20%)], `calculateCapitalGainsTax` returns 0 at (30000 ordinary,
5000 preferential), returns 1747.50 = 3495/2 at (40000, 20000) — 8350
taxed at 0% and 11650 at 15% — and returns 0 for every ordinary income and
every non-positive preferential amount. -/
theorem c1_stacked_capital_gains :
    calculateCapitalGainsTax 30000 5000 .single = 0 ∧
    calculateCapitalGainsTax 40000 20000 .single = 3495 / 2 ∧
    ∀ (taxableIncome capitalGains : ℚ) (fs : FilingStatus),
      capitalGains ≤ 0 → calculateCapitalGainsTax taxableIncome capitalGains fs = 0 := by
  refine ⟨?_, ?_, ?_⟩
  · norm_num [calculateCapitalGainsTax, cgLoop, CAPITAL_GAINS_BRACKETS_2025, jsMax, jsMin]
  · norm_num [calculateCapitalGainsTax, cgLoop, CAPITAL_GAINS_BRACKETS_2025, jsMax, jsMin]
  · intro taxableIncome capitalGains fs h
    simp [calculateCapitalGainsTax, h]

/-- C1 witness: the non-positive-preferential-income branch evaluated at a
concrete input. -/
theorem c1_stacked_capital_gains_witness :
    calculateCapitalGainsTax 12345 (-7) .married = 0 :=
  c1_stacked_capital_gains.2.2 12345 (-7) .married (by norm_num)

/-- C5 counterexample: `calculateNIIT` does not floor the
net-investment-income operand, so at AGI 250000 and net investment income
-1000 (single) the result is -38, which is negative — refuting both the
two-sided floor and the non-negativity asserted by the claim. -/
theorem c5_niit_negative_counterexample :
    calculateNIIT 250000 (-1000) .single = -38 ∧
    calculateNIIT 250000 (-1000) .single < 0 := by
  constructor <;> norm_num [calculateNIIT, niitThreshold, jsMax, jsMin]

/-- C5 amended: `calculateNIIT` returns 0.038 × min(max(0, AGI −
threshold), netInvestmentIncome) — only the excess-AGI operand is floored
at zero; the result is non-negative whenever the net investment income is
non-negative, and NIITCalculator(250000, 30000, single) = 1140. -/
theorem c5_niit_formula :
    (∀ (agi nii : ℚ) (fs : FilingStatus),
      calculateNIIT agi nii fs = 0.038 * min (max 0 (agi - niitThreshold fs)) nii) ∧
    (∀ (agi nii : ℚ) (fs : FilingStatus), 0 ≤ nii → 0 ≤ calculateNIIT agi nii fs) ∧
    calculateNIIT 250000 30000 .single = 1140 := by
  refine ⟨?_, ?_, ?_⟩
  · intro agi nii fs
    simp only [calculateNIIT, jsMax_eq_max, jsMin_eq_min]
    ring
  · intro agi nii fs h
    simp only [calculateNIIT, jsMax_eq_max, jsMin_eq_min]
    have h1 : 0 ≤ min (max 0 (agi - niitThreshold fs)) nii :=
      le_min (le_max_left 0 _) h
    positivity
  · norm_num [calculateNIIT, niitThreshold, jsMax, jsMin]

/-- C5 witness: the non-negativity part of the amended claim at a concrete
input. -/
theorem c5_niit_formula_witness :
    0 ≤ calculateNIIT 300000 12 .head :=
  c5_niit_formula.2.1 300000 12 .head (by norm_num)

/-- C6 failing input: a profile whose only entry is an ISO exercise spread
of 500000, so the pipeline's regular tax is exactly 0. -/
def c6Form : Form := { isoExerciseSpread := some 500000 }

/-- C6: at the failing input `c6Form` the pipeline's regular tax is 0, so
`currentTax.regularTax || currentTax.incomeTax` inside `calculateAMT`
evaluates to `undefined` (the result has no `incomeTax` field) and the
returned `amtOwed` is NaN (`none` in the embedding) — while the claim's
`max(0, tentativeMinimumTax - regularTax)` would be 110680. -/
theorem c6_amt_owed_nan_at_zero_regular_tax :
    (calculateTotalTax dEval c6Form).regularTax = 0 ∧
    (calculateAMT c6Form (calculateTotalTax dEval c6Form) .single).tentativeMinimumTax = 110680 ∧
    (calculateAMT c6Form (calculateTotalTax dEval c6Form) .single).amtOwed = none ∧
    (calculateAMT c6Form (calculateTotalTax dEval c6Form) .single).amtOwed ≠
      some (max 0 ((calculateAMT c6Form (calculateTotalTax dEval c6Form) .single).tentativeMinimumTax - 0)) := by
  have hreg : (calculateTotalTax dEval c6Form).regularTax = 0 := by
    simp +decide [calculateTotalTax, c6Form, dEval, num, jsOr, jsMax, jsMin, scheduleCNet,
      scheduleENet, totalCapitalGainsOf, longTermGainsOf, baseAdjustmentsOf, getPhaseOutPct,
      seniorBonusOf, calculateAge, actualSaltOf, itemizedTotalOf, estimatedChildCreditOf,
      estimatedOtherDependentsCreditOf, nonRefundableCreditsOf, refundableCreditsOf,
      STANDARD_DEDUCTIONS_2025, TAX_BRACKETS_2025, calculateBracketTax, bracketWalk,
      calculateCapitalGainsTax, cgLoop, CAPITAL_GAINS_BRACKETS_2025,
      calculateSelfEmploymentTax, calculateNIIT, niitThreshold]
  have htax : (calculateTotalTax dEval c6Form).taxableIncome = 0 := by
    simp +decide [calculateTotalTax, c6Form, dEval, num, jsOr, jsMax, jsMin, scheduleCNet,
      scheduleENet, totalCapitalGainsOf, longTermGainsOf, baseAdjustmentsOf, getPhaseOutPct,
      seniorBonusOf, calculateAge, actualSaltOf, itemizedTotalOf, estimatedChildCreditOf,
      estimatedOtherDependentsCreditOf, nonRefundableCreditsOf, refundableCreditsOf,
      STANDARD_DEDUCTIONS_2025, TAX_BRACKETS_2025, calculateBracketTax, bracketWalk,
      calculateCapitalGainsTax, cgLoop, CAPITAL_GAINS_BRACKETS_2025,
      calculateSelfEmploymentTax, calculateNIIT, niitThreshold]
  have htmt : (calculateAMT c6Form (calculateTotalTax dEval c6Form) .single).tentativeMinimumTax = 110680 := by
    simp only [calculateAMT, htax, hreg]
    simp +decide [calculateAMTExemption, amtExemptionBase, amtPhaseOutStart,
      amtSaltDeductionOf, c6Form, num, jsMax, jsMin]
    norm_num
  have howed : (calculateAMT c6Form (calculateTotalTax dEval c6Form) .single).amtOwed = none := by
    simp only [calculateAMT, hreg]
    norm_num
  exact ⟨hreg, htmt, howed, by rw [howed]; exact fun h => Option.noConfusion h⟩

/-- C7 counterexample input: the pipeline claims itemized deductions
(`deductionType = 'itemized'`, SALT of 10000 claimed inside them) but the
`itemizedDeductions` flag that `calculateAMT` keys on is unset. -/
def c7Form : Form :=
  { totalWages := some 100000, deductionType := some .itemized,
    stateLocalTaxes := some 10000 }

/-- C7 counterexample: on `c7Form` the regular pipeline actually claims an
itemized deduction of 10000 (all of it capped SALT), yet `calculateAMT`
performs no SALT add-back — its condition is the separate
`form.itemizedDeductions` flag, not the pipeline's `deductionType` — so
AMTI equals the taxable income 90000, not 90000 + 10000 as the claim
requires. -/
theorem c7_salt_addback_counterexample :
    c7Form.deductionType = some .itemized ∧
    (calculateTotalTax dEval c7Form).deduction = 10000 ∧
    (calculateTotalTax dEval c7Form).taxableIncome = 90000 ∧
    (calculateAMT c7Form (calculateTotalTax dEval c7Form) .single).amti = 90000 ∧
    (calculateAMT c7Form (calculateTotalTax dEval c7Form) .single).amti ≠
      (calculateTotalTax dEval c7Form).taxableIncome + 10000 := by
  have hded : (calculateTotalTax dEval c7Form).deduction = 10000 := by
    simp +decide [calculateTotalTax, c7Form, dEval, num, jsOr, jsMax, jsMin, scheduleCNet,
      scheduleENet, totalCapitalGainsOf, longTermGainsOf, baseAdjustmentsOf, getPhaseOutPct,
      seniorBonusOf, calculateAge, actualSaltOf, itemizedTotalOf, estimatedChildCreditOf,
      estimatedOtherDependentsCreditOf, nonRefundableCreditsOf, refundableCreditsOf,
      STANDARD_DEDUCTIONS_2025, TAX_BRACKETS_2025, calculateBracketTax, bracketWalk,
      calculateCapitalGainsTax, cgLoop, CAPITAL_GAINS_BRACKETS_2025,
      calculateSelfEmploymentTax, calculateNIIT, niitThreshold]
  have htax : (calculateTotalTax dEval c7Form).taxableIncome = 90000 := by
    simp +decide [calculateTotalTax, c7Form, dEval, num, jsOr, jsMax, jsMin, scheduleCNet,
      scheduleENet, totalCapitalGainsOf, longTermGainsOf, baseAdjustmentsOf, getPhaseOutPct,
      seniorBonusOf, calculateAge, actualSaltOf, itemizedTotalOf, estimatedChildCreditOf,
      estimatedOtherDependentsCreditOf, nonRefundableCreditsOf, refundableCreditsOf,
      STANDARD_DEDUCTIONS_2025, TAX_BRACKETS_2025, calculateBracketTax, bracketWalk,
      calculateCapitalGainsTax, cgLoop, CAPITAL_GAINS_BRACKETS_2025,
      calculateSelfEmploymentTax, calculateNIIT, niitThreshold]
    norm_num
  have hamti : (calculateAMT c7Form (calculateTotalTax dEval c7Form) .single).amti = 90000 := by
    simp only [calculateAMT, htax]
    norm_num [amtSaltDeductionOf, c7Form, num]
  refine ⟨rfl, hded, htax, hamti, ?_⟩
  rw [hamti, htax]
  norm_num

/-- C7 amended: AMTI equals the pipeline's taxable income plus the
flat-40000-capped SALT amount exactly when the `itemizedDeductions` flag is
set and that amount is positive (independently of whether the pipeline
claimed itemized or standard deductions), plus the ISO exercise spread, the
private-activity-bond interest and the depreciation adjustment. -/
theorem c7_amti_formula :
    ∀ (today : DateParts) (form : Form) (fs : FilingStatus),
      (calculateAMT form (calculateTotalTax today form) fs).amti =
        (calculateTotalTax today form).taxableIncome +
          (if form.itemizedDeductions ∧ 0 < amtSaltDeductionOf form
            then amtSaltDeductionOf form else 0) +
          num form.isoExerciseSpread + num form.privateActivityBondInterest +
          num form.amtDepreciationAdjustment ∧
      ∀ dt : Option DeductionType,
        (calculateAMT { form with deductionType := dt } (calculateTotalTax today form) fs).amti =
          (calculateAMT form (calculateTotalTax today form) fs).amti :=
  fun _ _ _ => ⟨rfl, fun _ => rfl⟩

/-- C9 counterexample input: a profile with a birth date of 1960-06-15
(month index 5); the taxpayer turns 65 during 2025, so runs of the
pipeline on two different days of 2025 disagree. -/
def c9Form : Form := { totalWages := some 100000, birthDate := some ⟨1960, 5, 15⟩ }

/-- C9 counterexample: `calculateTotalTax` reads the current date through
`calculateAge` (`new Date()` in the source); on 2025-01-10 the age is 64
(no senior bonus, finalTax 13460) while on 2025-12-31 it is 65 (6000
senior-bonus deduction, finalTax 12140), so two invocations on the same
TaxProfile return different TaxResults. -/
theorem c9_pipeline_reads_current_date :
    (calculateTotalTax ⟨2025, 0, 10⟩ c9Form).finalTax = 13460 ∧
    (calculateTotalTax ⟨2025, 11, 31⟩ c9Form).finalTax = 12140 ∧
    calculateTotalTax ⟨2025, 0, 10⟩ c9Form ≠ calculateTotalTax ⟨2025, 11, 31⟩ c9Form := by
  have e1 : (calculateTotalTax ⟨2025, 0, 10⟩ c9Form).finalTax = 13460 := by
    simp +decide [calculateTotalTax, c9Form, num, jsOr, jsMax, jsMin, scheduleCNet,
      scheduleENet, totalCapitalGainsOf, longTermGainsOf, baseAdjustmentsOf, getPhaseOutPct,
      seniorBonusOf, calculateAge, actualSaltOf, itemizedTotalOf, estimatedChildCreditOf,
      estimatedOtherDependentsCreditOf, nonRefundableCreditsOf, refundableCreditsOf,
      STANDARD_DEDUCTIONS_2025, TAX_BRACKETS_2025, calculateBracketTax, bracketWalk,
      calculateCapitalGainsTax, cgLoop, CAPITAL_GAINS_BRACKETS_2025,
      calculateSelfEmploymentTax, calculateNIIT, niitThreshold]
    norm_num
  have e2 : (calculateTotalTax ⟨2025, 11, 31⟩ c9Form).finalTax = 12140 := by
    simp +decide [calculateTotalTax, c9Form, num, jsOr, jsMax, jsMin, scheduleCNet,
      scheduleENet, totalCapitalGainsOf, longTermGainsOf, baseAdjustmentsOf, getPhaseOutPct,
      seniorBonusOf, calculateAge, actualSaltOf, itemizedTotalOf, estimatedChildCreditOf,
      estimatedOtherDependentsCreditOf, nonRefundableCreditsOf, refundableCreditsOf,
      STANDARD_DEDUCTIONS_2025, TAX_BRACKETS_2025, calculateBracketTax, bracketWalk,
      calculateCapitalGainsTax, cgLoop, CAPITAL_GAINS_BRACKETS_2025,
      calculateSelfEmploymentTax, calculateNIIT, niitThreshold]
    norm_num
  refine ⟨e1, e2, fun h => ?_⟩
  have hfin := congrArg TaxResult.finalTax h
  rw [e1, e2] at hfin
  norm_num at hfin

/-- C9 amended: for profiles with no `birthDate` the pipeline is
independent of the current date — equal TaxProfiles and equal dates always
give equal TaxResults, and the date matters only through `calculateAge`. -/
theorem c9_pipeline_deterministic_without_birthdate :
    ∀ (d1 d2 : DateParts) (form : Form), form.birthDate = none →
      calculateTotalTax d1 form = calculateTotalTax d2 form := by
  intro d1 d2 form h
  have hage : ∀ d : DateParts, calculateAge d form.birthDate = 40 := fun d => by
    rw [h]
    rfl
  have hsb : ∀ d : DateParts, seniorBonusOf d form = 0 := fun d => by
    simp [seniorBonusOf, hage]
  simp only [calculateTotalTax, hsb]

/-- C9 witness: the amended determinism applied at two concrete dates and a
concrete birthdate-free profile. -/
theorem c9_pipeline_deterministic_without_birthdate_witness :
    calculateTotalTax ⟨2025, 0, 1⟩ ({ totalWages := some 60000 } : Form) =
      calculateTotalTax ⟨2026, 6, 6⟩ ({ totalWages := some 60000 } : Form) :=
  c9_pipeline_deterministic_without_birthdate ⟨2025, 0, 1⟩ ⟨2026, 6, 6⟩ _ rfl

/-- C10 negative-final-tax input: a refundable earned-income credit of
5000 on an otherwise empty profile. -/
def c10Form : Form := { earnedIncomeCredit := some 5000 }

/-- C10: finalTax = max(0, totalTaxBeforeCredits − nonRefundableCredits) −
refundableCredits — only the non-refundable subtraction is clamped.
finalTax is non-negative whenever the refundable credits
(earnedIncomeCredit, otherCredits) sum to zero, can be strictly negative
otherwise (−5000 on `c10Form`), and refundOrOwed = totalPayments −
finalTax reflects that. -/
theorem c10_final_tax_clamp :
    (∀ (today : DateParts) (form : Form),
      (calculateTotalTax today form).finalTax =
        max 0 ((calculateTotalTax today form).totalTaxBeforeCredits -
          nonRefundableCreditsOf form) - refundableCreditsOf form ∧
      (calculateTotalTax today form).refundOrOwed =
        (calculateTotalTax today form).totalPayments - (calculateTotalTax today form).finalTax) ∧
    (∀ (today : DateParts) (form : Form), refundableCreditsOf form = 0 →
      0 ≤ (calculateTotalTax today form).finalTax) ∧
    (calculateTotalTax dEval c10Form).finalTax = -5000 ∧
    (calculateTotalTax dEval c10Form).refundOrOwed = 5000 := by
  have hmain : ∀ (today : DateParts) (form : Form),
      (calculateTotalTax today form).finalTax =
        max 0 ((calculateTotalTax today form).totalTaxBeforeCredits -
          nonRefundableCreditsOf form) - refundableCreditsOf form := by
    intro today form
    simp only [calculateTotalTax, jsMax_eq_max]
  have hneg : (calculateTotalTax dEval c10Form).finalTax = -5000 := by
    simp +decide [calculateTotalTax, c10Form, dEval, num, jsOr, jsMax, jsMin, scheduleCNet,
      scheduleENet, totalCapitalGainsOf, longTermGainsOf, baseAdjustmentsOf, getPhaseOutPct,
      seniorBonusOf, calculateAge, actualSaltOf, itemizedTotalOf, estimatedChildCreditOf,
      estimatedOtherDependentsCreditOf, nonRefundableCreditsOf, refundableCreditsOf,
      STANDARD_DEDUCTIONS_2025, TAX_BRACKETS_2025, calculateBracketTax, bracketWalk,
      calculateCapitalGainsTax, cgLoop, CAPITAL_GAINS_BRACKETS_2025,
      calculateSelfEmploymentTax, calculateNIIT, niitThreshold]
  refine ⟨fun today form => ⟨hmain today form, rfl⟩, ?_, hneg, ?_⟩
  · intro today form h
    rw [hmain today form, h, sub_zero]
    exact le_max_left 0 _
  · have : (calculateTotalTax dEval c10Form).refundOrOwed =
        (calculateTotalTax dEval c10Form).totalPayments -
          (calculateTotalTax dEval c10Form).finalTax := rfl
    rw [this, hneg]
    norm_num [calculateTotalTax, c10Form, num]

/-- C10 witness: the clamped non-negativity applied at a concrete profile
with zero refundable credits. -/
theorem c10_final_tax_clamp_witness :
    0 ≤ (calculateTotalTax dEval ({ totalWages := some 10 } : Form)).finalTax :=
  c10_final_tax_clamp.2.1 dEval _ (by norm_num [refundableCreditsOf, num])

/-! Lemmas about `bracketWalk`, towards C8 (monotonicity and absence of
cliffs for `calculateBracketTax` on well-formed tables). -/

theorem bracketWalk_nil (inc : ℚ) : bracketWalk inc [] = 0 := rfl

theorem bracketWalk_singleton (inc l r : ℚ) :
    bracketWalk inc [(l, r)] = (inc - l) * r := rfl

theorem bracketWalk_cons2 (inc l r n r2 : ℚ) (rest : List (ℚ × ℚ)) :
    bracketWalk inc ((l, r) :: (n, r2) :: rest) =
      if n < inc then (n - l) * r + bracketWalk inc ((n, r2) :: rest)
      else (inc - l) * r := rfl

/-- The largest marginal rate of a table (0 for the empty table). -/
def rateBound (brackets : List (ℚ × ℚ)) : ℚ :=
  brackets.foldr (fun p acc => max p.2 acc) 0

theorem rateBound_cons (p : ℚ × ℚ) (l : List (ℚ × ℚ)) :
    rateBound (p :: l) = max p.2 (rateBound l) := rfl

theorem rateBound_nonneg (brackets : List (ℚ × ℚ)) : 0 ≤ rateBound brackets := by
  induction brackets with
  | nil => simp [rateBound]
  | cons hd tl ih => exact (rateBound_cons hd tl) ▸ le_trans ih (le_max_right _ _)

theorem rate_le_rateBound (brackets : List (ℚ × ℚ)) :
    ∀ p ∈ brackets, p.2 ≤ rateBound brackets := by
  induction brackets with
  | nil => intro p hp; exact absurd hp (List.not_mem_nil p)
  | cons hd tl ih =>
    intro p hp
    rw [rateBound_cons]
    rcases List.mem_cons.mp hp with rfl | h
    · exact le_max_left _ _
    · exact le_trans (ih p h) (le_max_right _ _)

/-- For a table with strictly ascending floors, non-negative rates and head
floor at most the income, the bracket walk is non-negative. -/
theorem bracketWalk_nonneg (bs : List (ℚ × ℚ)) :
    ∀ inc : ℚ, List.Chain' (fun p q => p.1 < q.1) bs → (∀ p ∈ bs, 0 ≤ p.2) →
      (∀ lr tl, bs = lr :: tl → lr.1 ≤ inc) → 0 ≤ bracketWalk inc bs := by
  induction bs with
  | nil => intro inc _ _ _; rw [bracketWalk_nil]
  | cons hd tl ih =>
    intro inc hc hr hh
    obtain ⟨l, r⟩ := hd
    have hl : l ≤ inc := hh (l, r) tl rfl
    have hr0 : 0 ≤ r := hr (l, r) (List.mem_cons_self _ _)
    cases tl with
    | nil =>
      rw [bracketWalk_singleton]
      exact mul_nonneg (by linarith) hr0
    | cons hd2 tl2 =>
      obtain ⟨n, r2⟩ := hd2
      rw [List.chain'_cons] at hc
      have hln : l < n := hc.1
      rw [bracketWalk_cons2]
      by_cases hn : n < inc
      · rw [if_pos hn]
        have h1 : 0 ≤ (n - l) * r := mul_nonneg (by linarith) hr0
        have h2 : 0 ≤ bracketWalk inc ((n, r2) :: tl2) :=
          ih inc hc.2 (fun p hp => hr p (List.mem_cons_of_mem _ hp))
            (fun lr tl' heq => by cases heq; exact hn.le)
        linarith
      · rw [if_neg hn]
        exact mul_nonneg (by linarith) hr0

/-- Walking the table at exactly the head floor yields 0. -/
theorem bracketWalk_head (l r : ℚ) (tl : List (ℚ × ℚ))
    (hc : List.Chain' (fun p q => p.1 < q.1) ((l, r) :: tl)) :
    bracketWalk l ((l, r) :: tl) = 0 := by
  cases tl with
  | nil => rw [bracketWalk_singleton, sub_self, zero_mul]
  | cons hd2 tl2 =>
    obtain ⟨n, r2⟩ := hd2
    rw [List.chain'_cons] at hc
    have hln : l < n := hc.1
    rw [bracketWalk_cons2, if_neg (lt_asymm hln), sub_self, zero_mul]

/-- Monotonicity of the bracket walk in the income. -/
theorem bracketWalk_mono (bs : List (ℚ × ℚ)) :
    ∀ a b : ℚ, List.Chain' (fun p q => p.1 < q.1) bs → (∀ p ∈ bs, 0 ≤ p.2) →
      (∀ lr tl, bs = lr :: tl → lr.1 ≤ a) → a ≤ b →
      bracketWalk a bs ≤ bracketWalk b bs := by
  induction bs with
  | nil => intro a b _ _ _ _; simp [bracketWalk_nil]
  | cons hd tl ih =>
    intro a b hc hr hh hab
    obtain ⟨l, r⟩ := hd
    have hla : l ≤ a := hh (l, r) tl rfl
    have hr0 : 0 ≤ r := hr (l, r) (List.mem_cons_self _ _)
    cases tl with
    | nil =>
      rw [bracketWalk_singleton, bracketWalk_singleton]
      exact mul_le_mul_of_nonneg_right (by linarith) hr0
    | cons hd2 tl2 =>
      obtain ⟨n, r2⟩ := hd2
      rw [List.chain'_cons] at hc
      have hln : l < n := hc.1
      have hrates : ∀ p ∈ (n, r2) :: tl2, 0 ≤ p.2 :=
        fun p hp => hr p (List.mem_cons_of_mem _ hp)
      rw [bracketWalk_cons2, bracketWalk_cons2]
      by_cases hna : n < a
      · have hnb : n < b := lt_of_lt_of_le hna hab
        rw [if_pos hna, if_pos hnb]
        have := ih a b hc.2 hrates (fun lr tl' heq => by cases heq; exact hna.le) hab
        linarith
      · rw [if_neg hna]
        by_cases hnb : n < b
        · rw [if_pos hnb]
          have h1 : (a - l) * r ≤ (n - l) * r :=
            mul_le_mul_of_nonneg_right (by linarith [not_lt.mp hna]) hr0
          have h2 : 0 ≤ bracketWalk b ((n, r2) :: tl2) :=
            bracketWalk_nonneg _ b hc.2 hrates (fun lr tl' heq => by cases heq; exact hnb.le)
          linarith
        · rw [if_neg hnb]
          exact mul_le_mul_of_nonneg_right (by linarith) hr0

/-- Lipschitz bound for the bracket walk: the difference over `[a, b]` is at
most `R * (b - a)` for any bound `R` on the rates. -/
theorem bracketWalk_lipschitz (bs : List (ℚ × ℚ)) :
    ∀ a b R : ℚ, List.Chain' (fun p q => p.1 < q.1) bs → (∀ p ∈ bs, p.2 ≤ R) →
      0 ≤ R → (∀ lr tl, bs = lr :: tl → lr.1 ≤ a) → a ≤ b →
      bracketWalk b bs - bracketWalk a bs ≤ R * (b - a) := by
  induction bs with
  | nil =>
    intro a b R _ _ hR _ hab
    rw [bracketWalk_nil, bracketWalk_nil]
    nlinarith
  | cons hd tl ih =>
    intro a b R hc hrR hR hh hab
    obtain ⟨l, r⟩ := hd
    have hla : l ≤ a := hh (l, r) tl rfl
    have hrle : r ≤ R := hrR (l, r) (List.mem_cons_self _ _)
    cases tl with
    | nil =>
      rw [bracketWalk_singleton, bracketWalk_singleton]
      have h1 : (b - a) * r ≤ (b - a) * R :=
        mul_le_mul_of_nonneg_left hrle (by linarith)
      nlinarith
    | cons hd2 tl2 =>
      obtain ⟨n, r2⟩ := hd2
      rw [List.chain'_cons] at hc
      have hln : l < n := hc.1
      have hratesR : ∀ p ∈ (n, r2) :: tl2, p.2 ≤ R :=
        fun p hp => hrR p (List.mem_cons_of_mem _ hp)
      rw [bracketWalk_cons2, bracketWalk_cons2]
      by_cases hnb : n < b
      · by_cases hna : n < a
        · rw [if_pos hna, if_pos hnb]
          have := ih a b R hc.2 hratesR hR
            (fun lr tl' heq => by cases heq; exact hna.le) hab
          linarith
        · rw [if_neg hna]
          have han : a ≤ n := not_lt.mp hna
          have hwn : bracketWalk n ((n, r2) :: tl2) = 0 := bracketWalk_head n r2 tl2 hc.2
          have h2 := ih n b R hc.2 hratesR hR
            (fun lr tl' heq => by cases heq; exact le_refl n) hnb.le
          rw [hwn, sub_zero] at h2
          have h3 : (n - a) * r ≤ (n - a) * R :=
            mul_le_mul_of_nonneg_left hrle (by linarith)
          rw [if_pos hnb]
          nlinarith
      · have hna : ¬ n < a := fun hx => hnb (lt_of_lt_of_le hx hab)
        rw [if_neg hna, if_neg hnb]
        have h1 : (b - a) * r ≤ (b - a) * R :=
          mul_le_mul_of_nonneg_left hrle (by linarith)
        nlinarith

/-- C8: for every bracket table with strictly increasing floors starting at
0 and non-negative rates, `calculateBracketTax` returns 0 on every
non-positive income, is monotone non-decreasing in income, and satisfies
the Lipschitz bound `tax(b) - tax(a) ≤ rateBound * (b - a)` — so there is
no cliff (jump discontinuity) at any bracket boundary. -/
theorem c8_bracket_tax_monotone_continuous (brackets : List (ℚ × ℚ))
    (hchain : List.Chain' (fun p q => p.1 < q.1) brackets)
    (hhead : ∀ lr tl, brackets = lr :: tl → lr.1 = 0)
    (hrates : ∀ p ∈ brackets, 0 ≤ p.2) :
    (∀ income : ℚ, income ≤ 0 → calculateBracketTax income brackets = 0) ∧
    (∀ a b : ℚ, a ≤ b → calculateBracketTax a brackets ≤ calculateBracketTax b brackets) ∧
    (∀ a b : ℚ, a ≤ b → calculateBracketTax b brackets - calculateBracketTax a brackets ≤
      rateBound brackets * (b - a)) := by
  have hRb := rateBound_nonneg brackets
  have hrR := rate_le_rateBound brackets
  have hzero : ∀ income : ℚ, income ≤ 0 → calculateBracketTax income brackets = 0 := by
    intro income h
    rw [calculateBracketTax, if_pos h]
  have hwalk_nonneg : ∀ x : ℚ, 0 < x → 0 ≤ bracketWalk x brackets := by
    intro x hx
    exact bracketWalk_nonneg brackets x hchain hrates
      (fun lr tl heq => by rw [hhead lr tl heq]; linarith)
  have htax_pos : ∀ x : ℚ, 0 < x → calculateBracketTax x brackets = bracketWalk x brackets := by
    intro x hx
    rw [calculateBracketTax, if_neg (not_le.mpr hx), jsMax_eq_max,
      max_eq_right (hwalk_nonneg x hx)]
  have hwalk_zero : ∀ x : ℚ, 0 < x → bracketWalk x brackets ≤ rateBound brackets * x := by
    intro x hx
    cases brackets with
    | nil => rw [bracketWalk_nil]; positivity
    | cons hd tl =>
      have hfl : hd.1 = 0 := hhead hd tl rfl
      obtain ⟨l, r⟩ := hd
      have hl0 : l = 0 := hfl
      subst hl0
      have hw0 : bracketWalk 0 ((0, r) :: tl) = 0 := bracketWalk_head 0 r tl hchain
      have := bracketWalk_lipschitz ((0, r) :: tl) 0 x (rateBound ((0, r) :: tl)) hchain hrR hRb
        (fun lr tl' heq => by cases heq; exact le_refl 0) hx.le
      rw [hw0, sub_zero, sub_zero] at this
      exact this
  refine ⟨hzero, ?_, ?_⟩
  · intro a b hab
    by_cases hb : b ≤ 0
    · rw [hzero a (le_trans hab hb), hzero b hb]
    · have hbpos : 0 < b := not_le.mp hb
      by_cases ha : a ≤ 0
      · rw [hzero a ha, htax_pos b hbpos]
        exact hwalk_nonneg b hbpos
      · have hapos : 0 < a := not_le.mp ha
        rw [htax_pos a hapos, htax_pos b hbpos]
        exact bracketWalk_mono brackets a b hchain hrates
          (fun lr tl heq => by rw [hhead lr tl heq]; linarith) hab
  · intro a b hab
    by_cases hb : b ≤ 0
    · rw [hzero a (le_trans hab hb), hzero b hb]
      nlinarith
    · have hbpos : 0 < b := not_le.mp hb
      by_cases ha : a ≤ 0
      · rw [hzero a ha, htax_pos b hbpos, sub_zero]
        have h1 := hwalk_zero b hbpos
        nlinarith
      · have hapos : 0 < a := not_le.mp ha
        rw [htax_pos a hapos, htax_pos b hbpos]
        exact bracketWalk_lipschitz brackets a b (rateBound brackets) hchain hrR hRb
          (fun lr tl heq => by rw [hhead lr tl heq]; linarith) hab

/-- C8 witness: the three properties applied to the concrete 2025 single
table at concrete incomes. -/
theorem c8_bracket_tax_monotone_continuous_witness :
    calculateBracketTax (-1) (TAX_BRACKETS_2025 .single) = 0 ∧
    calculateBracketTax 40000 (TAX_BRACKETS_2025 .single) ≤
      calculateBracketTax 50000 (TAX_BRACKETS_2025 .single) ∧
    calculateBracketTax 50000 (TAX_BRACKETS_2025 .single) -
      calculateBracketTax 40000 (TAX_BRACKETS_2025 .single) ≤
      rateBound (TAX_BRACKETS_2025 .single) * (50000 - (40000 : ℚ)) := by
  have hc : List.Chain' (fun p q : ℚ × ℚ => p.1 < q.1) (TAX_BRACKETS_2025 .single) := by
    norm_num [TAX_BRACKETS_2025, List.chain'_cons]
  have hh : ∀ lr tl, TAX_BRACKETS_2025 .single = lr :: tl → lr.1 = 0 := by
    intro lr tl heq
    rw [TAX_BRACKETS_2025] at heq
    cases heq
    rfl
  have hr : ∀ p ∈ TAX_BRACKETS_2025 .single, 0 ≤ p.2 := by
    intro p hp
    rw [TAX_BRACKETS_2025] at hp
    fin_cases hp <;> norm_num
  obtain ⟨h1, h2, h3⟩ := c8_bracket_tax_monotone_continuous (TAX_BRACKETS_2025 .single) hc hh hr
  exact ⟨h1 (-1) (by norm_num), h2 40000 50000 (by norm_num), h3 40000 50000 (by norm_num)⟩

/-! Lemmas about the stable descending sort used by the orchestrator,
towards C3. -/

theorem insertDesc_perm (x : Rec) (l : List Rec) : (insertDesc x l).Perm (x :: l) := by
  induction l with
  | nil => exact List.Perm.refl _
  | cons y ys ih =>
    simp only [insertDesc]
    by_cases h : y.potentialSavings ≤ x.potentialSavings
    · rw [if_pos h]
    · rw [if_neg h]
      exact (ih.cons y).trans (List.Perm.swap x y ys)

theorem sortDesc_perm (l : List Rec) : (sortDesc l).Perm l := by
  induction l with
  | nil => exact List.Perm.refl _
  | cons x xs ih =>
    simp only [sortDesc]
    exact (insertDesc_perm x (sortDesc xs)).trans (ih.cons x)

theorem insertDesc_pairwise (x : Rec) (l : List Rec)
    (hl : List.Pairwise (fun a b => b.potentialSavings ≤ a.potentialSavings) l) :
    List.Pairwise (fun a b => b.potentialSavings ≤ a.potentialSavings) (insertDesc x l) := by
  induction l with
  | nil => simp [insertDesc]
  | cons y ys ih =>
    rw [List.pairwise_cons] at hl
    simp only [insertDesc]
    by_cases h : y.potentialSavings ≤ x.potentialSavings
    · rw [if_pos h]
      refine List.Pairwise.cons ?_ (List.Pairwise.cons hl.1 hl.2)
      intro z hz
      rcases List.mem_cons.mp hz with rfl | hz2
      · exact h
      · exact le_trans (hl.1 z hz2) h
    · rw [if_neg h]
      refine List.Pairwise.cons ?_ (ih hl.2)
      intro z hz
      have hz3 : z ∈ x :: ys := (insertDesc_perm x ys).mem_iff.mp hz
      rcases List.mem_cons.mp hz3 with rfl | hz4
      · exact (not_le.mp h).le
      · exact hl.1 z hz4

theorem sortDesc_pairwise (l : List Rec) :
    List.Pairwise (fun a b => b.potentialSavings ≤ a.potentialSavings) (sortDesc l) := by
  induction l with
  | nil => exact List.Pairwise.nil
  | cons x xs ih =>
    simp only [sortDesc]
    exact insertDesc_pairwise x (sortDesc xs) ih

/-- Stability of the insertion: elements of any fixed `potentialSavings`
value keep their relative order (the inserted element cannot cross a tie,
because it only moves past strictly larger values). -/
theorem insertDesc_filter (x : Rec) (l : List Rec) (c : ℚ) :
    (insertDesc x l).filter (fun o => decide (o.potentialSavings = c)) =
      (x :: l).filter (fun o => decide (o.potentialSavings = c)) := by
  induction l with
  | nil => rfl
  | cons y ys ih =>
    simp only [insertDesc]
    by_cases h : y.potentialSavings ≤ x.potentialSavings
    · rw [if_pos h]
    · rw [if_neg h]
      have hlt : x.potentialSavings < y.potentialSavings := not_le.mp h
      by_cases hy : y.potentialSavings = c
      · have hx : ¬ x.potentialSavings = c := by
          rw [hy] at hlt
          exact ne_of_lt hlt
        simp [List.filter_cons, hy, hx, ih]
      · simp [List.filter_cons, hy, ih]

theorem sortDesc_filter (l : List Rec) (c : ℚ) :
    (sortDesc l).filter (fun o => decide (o.potentialSavings = c)) =
      l.filter (fun o => decide (o.potentialSavings = c)) := by
  induction l with
  | nil => rfl
  | cons x xs ih =>
    simp only [sortDesc]
    rw [insertDesc_filter]
    simp only [List.filter_cons, ih]

/-- C3: the orchestrator's `optimizations` are exactly the concatenated
analyzer recommendations with strictly positive `potentialSavings`, sorted
descending by `potentialSavings`; the sort is stable (ties keep their
original encounter order — the filter over any fixed savings value is
unchanged — so no id tiebreak is ever consulted); `totalPotentialSavings`
is their sum; and `optimizedTax = max(0, finalTax −
totalPotentialSavings)`. -/
theorem c3_orchestrator_ranking (today : DateParts) (analyzers : List Analyzer) (form : Form) :
    (analyzeTaxOptimizations today analyzers form).optimizations.Perm
      (((runAnalyzers analyzers form).1).filter fun o => decide (0 < o.potentialSavings)) ∧
    List.Pairwise (fun a b => b.potentialSavings ≤ a.potentialSavings)
      (analyzeTaxOptimizations today analyzers form).optimizations ∧
    (∀ c : ℚ,
      ((analyzeTaxOptimizations today analyzers form).optimizations.filter
          fun o => decide (o.potentialSavings = c)) =
        ((((runAnalyzers analyzers form).1).filter fun o => decide (0 < o.potentialSavings)).filter
          fun o => decide (o.potentialSavings = c))) ∧
    (analyzeTaxOptimizations today analyzers form).totalPotentialSavings =
      ((((runAnalyzers analyzers form).1).filter fun o => decide (0 < o.potentialSavings)).map
        fun o => o.potentialSavings).sum ∧
    (analyzeTaxOptimizations today analyzers form).optimizedTax =
      max 0 ((analyzeTaxOptimizations today analyzers form).currentTax.finalTax -
        (analyzeTaxOptimizations today analyzers form).totalPotentialSavings) := by
  refine ⟨sortDesc_perm _, sortDesc_pairwise _, fun c => sortDesc_filter _ c, ?_, ?_⟩
  · exact ((sortDesc_perm _).map fun o => o.potentialSavings).sum_eq
  · exact jsMax_eq_max 0 _

/-- Replacing a throwing analyzer by one returning no recommendations
leaves the gathered recommendation list unchanged, and the thrown message
is among the recorded diagnostics. -/
theorem runAnalyzers_set_error (l : List Analyzer) :
    ∀ (i : Nat) (h : i < l.length) (form : Form) (e : String),
      l.get ⟨i, h⟩ form = Except.error e →
      (runAnalyzers l form).1 = (runAnalyzers (l.set i fun _ => Except.ok []) form).1 ∧
      e ∈ (runAnalyzers l form).2 := by
  induction l with
  | nil => intro i h; exact absurd h (by simp)
  | cons a tl ih =>
    intro i h form e herr
    cases i with
    | zero =>
      have ha : a form = Except.error e := herr
      constructor
      · show (runAnalyzers (a :: tl) form).1 =
          (runAnalyzers ((a :: tl).set 0 fun _ => Except.ok []) form).1
        simp only [List.set, runAnalyzers, ha, List.nil_append]
      · show e ∈ (runAnalyzers (a :: tl) form).2
        simp only [runAnalyzers, ha]
        exact List.mem_cons_self _ _
    | succ n =>
      have h' : n < tl.length := Nat.lt_of_succ_lt_succ (by simpa using h)
      have herr' : tl.get ⟨n, h'⟩ form = Except.error e := herr
      obtain ⟨ih1, ih2⟩ := ih n h' form e herr'
      constructor
      · show (runAnalyzers (a :: tl) form).1 =
          (runAnalyzers ((a :: tl).set (n + 1) fun _ => Except.ok []) form).1
        simp only [List.set, runAnalyzers]
        cases ha : a form with
        | ok recs => simp only [ih1]
        | error e2 => simp only [ih1]
      · show e ∈ (runAnalyzers (a :: tl) form).2
        simp only [runAnalyzers]
        cases ha : a form with
        | ok recs => exact ih2
        | error e2 => exact List.mem_cons_of_mem _ ih2

/-- C2: if the analyzer at position `i` throws, the orchestrator records
the diagnostic, treats that analyzer as having produced zero
recommendations — every component of the result other than the diagnostics
equals the run with that analyzer replaced by one returning the empty list
— and still returns the well-formed record (currentTax, optimizations,
totalPotentialSavings, optimizedTax, summary) instead of propagating the
error. -/
theorem c2_orchestrator_fault_isolation (today : DateParts) (analyzers : List Analyzer)
    (form : Form) (i : Nat) (h : i < analyzers.length) (e : String)
    (herr : analyzers.get ⟨i, h⟩ form = Except.error e) :
    e ∈ (analyzeTaxOptimizations today analyzers form).diagnostics ∧
    (analyzeTaxOptimizations today analyzers form).currentTax =
      (analyzeTaxOptimizations today (analyzers.set i fun _ => Except.ok []) form).currentTax ∧
    (analyzeTaxOptimizations today analyzers form).optimizations =
      (analyzeTaxOptimizations today (analyzers.set i fun _ => Except.ok []) form).optimizations ∧
    (analyzeTaxOptimizations today analyzers form).totalPotentialSavings =
      (analyzeTaxOptimizations today (analyzers.set i fun _ => Except.ok []) form).totalPotentialSavings ∧
    (analyzeTaxOptimizations today analyzers form).optimizedTax =
      (analyzeTaxOptimizations today (analyzers.set i fun _ => Except.ok []) form).optimizedTax ∧
    (analyzeTaxOptimizations today analyzers form).summary =
      (analyzeTaxOptimizations today (analyzers.set i fun _ => Except.ok []) form).summary := by
  obtain ⟨h1, h2⟩ := runAnalyzers_set_error analyzers i h form e herr
  refine ⟨h2, rfl, ?_, ?_, ?_, ?_⟩ <;> simp only [analyzeTaxOptimizations, h1]

/-- Concrete throwing analyzer for the C2 witness. -/
def c2ErrAnalyzer : Analyzer := fun _ => Except.error "boom"

/-- Concrete succeeding analyzer for the C2 witness. -/
def c2OkAnalyzer : Analyzer := fun _ =>
  Except.ok [{ id := "r0", category := "Deductions", difficulty := "easy",
               potentialSavings := 5 }]

/-- C2 witness: the fault-isolation theorem applied to a concrete
two-analyzer registry whose first analyzer throws. -/
theorem c2_orchestrator_fault_isolation_witness :
    "boom" ∈ (analyzeTaxOptimizations dEval [c2ErrAnalyzer, c2OkAnalyzer] c6Form).diagnostics ∧
    (analyzeTaxOptimizations dEval [c2ErrAnalyzer, c2OkAnalyzer] c6Form).currentTax =
      (analyzeTaxOptimizations dEval ([c2ErrAnalyzer, c2OkAnalyzer].set 0 fun _ => Except.ok []) c6Form).currentTax ∧
    (analyzeTaxOptimizations dEval [c2ErrAnalyzer, c2OkAnalyzer] c6Form).optimizations =
      (analyzeTaxOptimizations dEval ([c2ErrAnalyzer, c2OkAnalyzer].set 0 fun _ => Except.ok []) c6Form).optimizations ∧
    (analyzeTaxOptimizations dEval [c2ErrAnalyzer, c2OkAnalyzer] c6Form).totalPotentialSavings =
      (analyzeTaxOptimizations dEval ([c2ErrAnalyzer, c2OkAnalyzer].set 0 fun _ => Except.ok []) c6Form).totalPotentialSavings ∧
    (analyzeTaxOptimizations dEval [c2ErrAnalyzer, c2OkAnalyzer] c6Form).optimizedTax =
      (analyzeTaxOptimizations dEval ([c2ErrAnalyzer, c2OkAnalyzer].set 0 fun _ => Except.ok []) c6Form).optimizedTax ∧
    (analyzeTaxOptimizations dEval [c2ErrAnalyzer, c2OkAnalyzer] c6Form).summary =
      (analyzeTaxOptimizations dEval ([c2ErrAnalyzer, c2OkAnalyzer].set 0 fun _ => Except.ok []) c6Form).summary :=
  c2_orchestrator_fault_isolation dEval [c2ErrAnalyzer, c2OkAnalyzer] c6Form 0
    (by norm_num) "boom" rfl

/-! Towards C4: `runWhatIfScenario` depends only on the SET of selected
ids — the merge happens in the ranked-list order of `optimizations`, not
in selection order. -/

theorem contains_congr (l1 l2 : List String) (h : ∀ s, s ∈ l1 ↔ s ∈ l2) (x : String) :
    l1.contains x = l2.contains x := by
  have e1 : l1.contains x = true ↔ x ∈ l1 := List.elem_iff
  have e2 : l2.contains x = true ↔ x ∈ l2 := List.elem_iff
  by_cases hm : x ∈ l1
  · rw [e1.mpr hm, e2.mpr ((h x).mp hm)]
  · have h1 : l1.contains x ≠ true := fun hc => hm (e1.mp hc)
    have h2 : l2.contains x ≠ true := fun hc => hm ((h x).mpr (e2.mp hc))
    rw [Bool.eq_false_iff.mpr h1, Bool.eq_false_iff.mpr h2]

theorem contains_cons_of_ne (id0 x : String) (ids : List String) (hne : x ≠ id0) :
    (id0 :: ids).contains x = ids.contains x := by
  have e1 : (id0 :: ids).contains x = true ↔ x ∈ id0 :: ids := List.elem_iff
  have e2 : ids.contains x = true ↔ x ∈ ids := List.elem_iff
  by_cases hm : x ∈ ids
  · rw [e1.mpr (List.mem_cons_of_mem _ hm), e2.mpr hm]
  · have h1 : (id0 :: ids).contains x ≠ true := fun hc => by
      rcases List.mem_cons.mp (e1.mp hc) with h | h
      · exact hne h
      · exact hm h
    have h2 : ids.contains x ≠ true := fun hc => hm (e2.mp hc)
    rw [Bool.eq_false_iff.mpr h1, Bool.eq_false_iff.mpr h2]

/-- First recommendation of the C4 registry: higher savings, patches
`deductionType` to itemized. -/
def c4RecA : Rec :=
  { id := "a", category := "Deductions", difficulty := "easy", potentialSavings := 10,
    formOverrides := some ({ deductionType := some .itemized } : Overrides) }

/-- Second recommendation of the C4 registry: lower savings, patches
`deductionType` to standard. -/
def c4RecB : Rec :=
  { id := "b", category := "Deductions", difficulty := "easy", potentialSavings := 5,
    formOverrides := some ({ deductionType := some .standard } : Overrides) }

/-- The C4 single-analyzer registry producing the two conflicting
recommendations. -/
def c4Analyzer : Analyzer := fun _ => Except.ok [c4RecA, c4RecB]

/-- C4 profile: itemizing (30000 of SALT) beats the 15700 standard
deduction, so the merge order of the two patches is observable. -/
def c4Form : Form := { totalWages := some 100000, stateLocalTaxes := some 30000 }

/-- C4 counterexample: with selection order [b, a] the spec's
selection-order merge would leave `deductionType = itemized` (finalTax
10314), but `runWhatIfScenario` merges in the ranked-list order [a, b], so
the last write is b's `standard` patch and the finalTax is 13460 — the
code does not merge in selection order. -/
theorem c4_whatif_selection_order_counterexample :
    (runWhatIfScenario dEval [c4Analyzer] c4Form ["b", "a"]).newTax.finalTax = 13460 ∧
    (runWhatIfScenarioSpec dEval [c4Analyzer] c4Form ["b", "a"]).newTax.finalTax = 10314 ∧
    runWhatIfScenario dEval [c4Analyzer] c4Form ["b", "a"] ≠
      runWhatIfScenarioSpec dEval [c4Analyzer] c4Form ["b", "a"] := by
  have e1 : (runWhatIfScenario dEval [c4Analyzer] c4Form ["b", "a"]).newTax.finalTax = 13460 := by
    simp +decide [runWhatIfScenario, analyzeTaxOptimizations, runAnalyzers, c4Analyzer,
      c4RecA, c4RecB, sortDesc, insertDesc, applyOverrides, c4Form, dEval,
      calculateTotalTax, num, jsOr, jsMax, jsMin, scheduleCNet, scheduleENet,
      totalCapitalGainsOf, longTermGainsOf, baseAdjustmentsOf, getPhaseOutPct,
      seniorBonusOf, calculateAge, actualSaltOf, itemizedTotalOf, estimatedChildCreditOf,
      estimatedOtherDependentsCreditOf, nonRefundableCreditsOf, refundableCreditsOf,
      STANDARD_DEDUCTIONS_2025, TAX_BRACKETS_2025, calculateBracketTax, bracketWalk,
      calculateCapitalGainsTax, cgLoop, CAPITAL_GAINS_BRACKETS_2025,
      calculateSelfEmploymentTax, calculateNIIT, niitThreshold]
    norm_num
  have e2 : (runWhatIfScenarioSpec dEval [c4Analyzer] c4Form ["b", "a"]).newTax.finalTax = 10314 := by
    simp +decide [runWhatIfScenarioSpec, analyzeTaxOptimizations, runAnalyzers, c4Analyzer,
      c4RecA, c4RecB, sortDesc, insertDesc, applyOverrides, c4Form, dEval,
      calculateTotalTax, num, jsOr, jsMax, jsMin, scheduleCNet, scheduleENet,
      totalCapitalGainsOf, longTermGainsOf, baseAdjustmentsOf, getPhaseOutPct,
      seniorBonusOf, calculateAge, actualSaltOf, itemizedTotalOf, estimatedChildCreditOf,
      estimatedOtherDependentsCreditOf, nonRefundableCreditsOf, refundableCreditsOf,
      STANDARD_DEDUCTIONS_2025, TAX_BRACKETS_2025, calculateBracketTax, bracketWalk,
      calculateCapitalGainsTax, cgLoop, CAPITAL_GAINS_BRACKETS_2025,
      calculateSelfEmploymentTax, calculateNIIT, niitThreshold]
    norm_num
  refine ⟨e1, e2, fun h => ?_⟩
  have hfin := congrArg (fun w : WhatIfResult => w.newTax.finalTax) h
  simp only at hfin
  rw [e1, e2] at hfin
  norm_num at hfin

/-- C4 amended: `runWhatIfScenario` merges the selected patches onto a copy
of the profile in the ranked-list order of `optimizations` (last write
wins along that order): the result depends only on the SET of selected ids
— any reordering or duplication of the selection is irrelevant — and a
selected id matching no recommendation is a no-op, never an error. -/
theorem c4_whatif_ids_set_semantics :
    (∀ (today : DateParts) (analyzers : List Analyzer) (form : Form) (ids1 ids2 : List String),
      (∀ s : String, s ∈ ids1 ↔ s ∈ ids2) →
      runWhatIfScenario today analyzers form ids1 = runWhatIfScenario today analyzers form ids2) ∧
    (∀ (today : DateParts) (analyzers : List Analyzer) (form : Form) (ids : List String)
      (id0 : String),
      (∀ r ∈ (analyzeTaxOptimizations today analyzers form).optimizations, r.id ≠ id0) →
      runWhatIfScenario today analyzers form (id0 :: ids) =
        runWhatIfScenario today analyzers form ids) := by
  constructor
  · intro today analyzers form ids1 ids2 h
    have hf : (analyzeTaxOptimizations today analyzers form).optimizations.filter
        (fun o => ids1.contains o.id) =
      (analyzeTaxOptimizations today analyzers form).optimizations.filter
        (fun o => ids2.contains o.id) :=
      List.filter_congr fun o _ => contains_congr ids1 ids2 h o.id
    simp only [runWhatIfScenario, hf]
  · intro today analyzers form ids id0 h
    have hf : (analyzeTaxOptimizations today analyzers form).optimizations.filter
        (fun o => (id0 :: ids).contains o.id) =
      (analyzeTaxOptimizations today analyzers form).optimizations.filter
        (fun o => ids.contains o.id) :=
      List.filter_congr fun o ho => contains_cons_of_ne id0 o.id ids (h o ho)
    simp only [runWhatIfScenario, hf]

/-- C4 witness: order-insensitivity and the unknown-id no-op applied to the
concrete C4 registry. -/
theorem c4_whatif_ids_set_semantics_witness :
    runWhatIfScenario dEval [c4Analyzer] c4Form ["a", "b"] =
      runWhatIfScenario dEval [c4Analyzer] c4Form ["b", "a"] ∧
    runWhatIfScenario dEval [c4Analyzer] c4Form ["zz", "b", "a"] =
      runWhatIfScenario dEval [c4Analyzer] c4Form ["b", "a"] := by
  constructor
  · exact c4_whatif_ids_set_semantics.1 dEval [c4Analyzer] c4Form ["a", "b"] ["b", "a"]
      (by intro s; simp [List.mem_cons]; tauto)
  · refine c4_whatif_ids_set_semantics.2 dEval [c4Analyzer] c4Form ["b", "a"] "zz" ?_
    intro r hr
    have hopts : (analyzeTaxOptimizations dEval [c4Analyzer] c4Form).optimizations =
        [c4RecA, c4RecB] := by
      simp +decide [analyzeTaxOptimizations, runAnalyzers, c4Analyzer, sortDesc, insertDesc,
        c4RecA, c4RecB]
    rw [hopts] at hr
    rcases List.mem_cons.mp hr with rfl | hr2
    · simp [c4RecA]
    · rcases List.mem_cons.mp hr2 with rfl | hr3
      · simp [c4RecB]
      · exact absurd hr3 (List.not_mem_nil r)

end TaxCore
